import Mathlib

/-!
Verification of the training-operator charm (`src/charm.py`) against its
natural-language specification.

The charm's event handlers are embedded as pure Lean functions over an
explicit environment (`Env`) that supplies, for each Kubernetes call the
charm can make, the outcome the cluster would return.  Each handler yields
a `HandlerResult`: the ordered trace of cluster/policy-manager calls it
issued, the ordered list of unit statuses it set, and the way control left
the handler (normal return, or an escaped exception).
-/

namespace TrainingOperator

/-- The four manifest groups the charm manages: the CRD-group handler
(`crd_resource_handler`), the TrainJob CRD group (`trainjob_resource_handler`),
the core K8s group (`k8s_resource_handler`), and the training-runtime group
(`training_runtimes_resource_handler`). -/
inductive Group
  | crd
  | trainjob
  | k8s
  | trainingRuntimes
deriving DecidableEq

/-- A lightkube `ApiError`'s observable payload: `error.status.code` and
`error.status.message`. -/
structure ApiErr where
  code : Nat
  message : String
deriving DecidableEq

/-- Unit status values (`ops.model`): `ActiveStatus`, `WaitingStatus(msg)`,
`MaintenanceStatus(msg)`, `BlockedStatus(msg)`.  The charm imports only the
first three; `blocked` is in the vocabulary so that its absence is a
statable property. -/
inductive Status
  | active
  | waiting (msg : String)
  | maintenance (msg : String)
  | blocked (msg : String)
deriving DecidableEq

/-- Whether a status is `Blocked`. -/
def Status.isBlocked : Status → Bool
  | .blocked _ => true
  | _ => false

/-- The `Action` enum used by authorization policies (only `allow` is used). -/
inductive Action
  | allow
deriving DecidableEq

/-- An Istio authorization-policy `Rule()` with no fields: the empty
match-all rule. -/
structure Rule where
deriving DecidableEq

/-- An `AuthorizationPolicy` resource as built by
`generate_allow_all_authorization_policies`: metadata name/namespace, the
workload selector's match labels, the action and the rule list. -/
structure AuthorizationPolicy where
  name : String
  namespaceName : String
  matchLabels : List (String × String)
  action : Action
  rules : List Rule
deriving DecidableEq

/-- One observable call issued by a handler.  `layerPush` and
`serviceRestart` are the pebble (process-supervision) operations; they are
in the vocabulary so that the absence of pebble interaction is statable —
`charm.py` declares no workload container and never issues them. -/
inductive Effect
  | applyGroup (g : Group)
  | deleteGroup (g : Group)
  | pollCrd (name : String)
  | policyReconcile (policies : List AuthorizationPolicy)
      (rawPolicies : List AuthorizationPolicy)
  | policyDelete
  | layerPush
  | serviceRestart
deriving DecidableEq

/-- Whether an effect mutates cluster state (resource apply, resource
delete, policy reconcile, policy delete).  A CRD-absence poll is a read. -/
def Effect.isMutating : Effect → Bool
  | .applyGroup _ => true
  | .deleteGroup _ => true
  | .policyReconcile _ _ => true
  | .policyDelete => true
  | .pollCrd _ => false
  | .layerPush => false
  | .serviceRestart => false

/-- An error propagating out of the `_on_remove` try block: either a
lightkube `ApiError`, or the charm's own `ObjectStillExistsError` (raised
by `ensure_crd_is_deleted` when the deadline elapses). -/
inductive RemErr
  | api (e : ApiErr)
  | stillExists
deriving DecidableEq

/-- How control left a handler: normal return, an escaped
`GenericCharmRuntimeError` (not an `ErrorWithStatus`, hence not caught by
the handlers), an escaped `ApiError`, or an escaped
`ObjectStillExistsError`. -/
inductive Outcome
  | completed
  | raisedGeneric (msg : String)
  | raisedApi (e : ApiErr)
  | raisedStillExists
deriving DecidableEq

/-- Everything a handler invocation observes about its surroundings:
leadership, presence of the `service-mesh` relation, unit identity, and
the outcome the cluster returns for each apply / bulk-delete / CRD poll.
`trainjobCrds` and `runtimeCrds` are the CRD names extracted from the
manifest files (the YAML files themselves are outside the charm source). -/
structure Env where
  isLeader : Bool
  meshRelation : Bool
  appName : String
  namespaceName : String
  applyResult : Group → Option ApiErr
  deleteResult : Group → Option ApiErr
  pollResult : String → Option RemErr
  trainjobCrds : List String
  runtimeCrds : List String

/-- The result of one handler invocation: the ordered effect trace, the
ordered list of statuses the handler set, and the exit mode. -/
structure HandlerResult where
  trace : List Effect
  statusSets : List Status
  outcome : Outcome
deriving DecidableEq

/-- The last status a handler set, i.e. the externally visible unit status
once the handler has run (`none` when the handler set no status). -/
def lastSet : List Status → Option Status
  | [] => none
  | [s] => some s
  | _ :: rest => lastSet rest

/-- Last status set during a handler invocation. -/
def lastStatus (r : HandlerResult) : Option Status :=
  lastSet r.statusSets

/-- Substring test on character lists: `listHasPre p l` is true when `p` is
an initial segment of `l`. -/
def listHasPre : List Char → List Char → Bool
  | [], _ => true
  | _ :: _, [] => false
  | a :: ps, b :: ls => a == b && listHasPre ps ls

/-- `listHasSub p l` is true when `p` occurs contiguously inside `l`. -/
def listHasSub (p : List Char) : List Char → Bool
  | [] => listHasPre p []
  | b :: ls => listHasPre p (b :: ls) || listHasSub p ls

/-- Python's `pat in s` on strings: `pat` occurs as a substring of `s`. -/
def strHasSub (s pat : String) : Bool :=
  listHasSub pat.toList s.toList

/-- Message literals from `_apply_k8s_resources`. -/
def msgPodNotReady : String :=
  "Charm Pod is not ready yet. Will apply TrainingRuntimes later."

/-- Second transient-condition message literal from `_apply_k8s_resources`. -/
def msgNoEndpoints : String :=
  "Webhook Server Service endpoints not ready. Will apply ClusterServingRuntimes later."

/-- Status set at the top of `_apply_k8s_resources`. -/
def statusCreating : Status := .maintenance "Creating K8S resources"

/-- The trace of a fully successful `_apply_k8s_resources` run: all four
groups applied in source order. -/
def applyAllTrace : List Effect :=
  [.applyGroup .crd, .applyGroup .trainjob, .applyGroup .k8s,
   .applyGroup .trainingRuntimes]

/-- Outcome of `_apply_k8s_resources` as seen by its callers: normal
return, a raised `ErrorWithStatus` carrying a status (caught by the
handlers), or a raised `GenericCharmRuntimeError` (escapes the handlers). -/
inductive ApplyOutcome
  | ok
  | errorWithStatus (s : Status)
  | genericError (msg : String)
deriving DecidableEq

/-- Result triple of `_apply_k8s_resources`. -/
structure ApplyRes where
  trace : List Effect
  statusSets : List Status
  outcome : ApplyOutcome
deriving DecidableEq

/-- Embedding of `TrainingOperatorCharm._apply_k8s_resources`:
sets Maintenance("Creating K8S resources"); applies the CRD group then the
TrainJob group (one try block — an `ApiError` from either raises
`GenericCharmRuntimeError("CRD resources creation failed: ...")`); applies
the core K8s group (`ApiError` raises
`GenericCharmRuntimeError("K8s resources creation failed: ...")`); applies
the training-runtime group, classifying its `ApiError`s: code 500 with
"connect: " in the message, or "no endpoints available" in the message,
set a Maintenance status and raise `ErrorWithStatus(msg, MaintenanceStatus)`;
anything else raises
`GenericCharmRuntimeError("TrainingRuntime resources creation failed: ...")`.
On success sets Maintenance("K8S resources created"). -/
def applyK8sResources (env : Env) : ApplyRes :=
  match env.applyResult .crd with
  | some e =>
      { trace := [.applyGroup .crd]
        statusSets := [statusCreating]
        outcome := .genericError ("CRD resources creation failed: " ++ e.message) }
  | none =>
    match env.applyResult .trainjob with
    | some e =>
        { trace := [.applyGroup .crd, .applyGroup .trainjob]
          statusSets := [statusCreating]
          outcome := .genericError ("CRD resources creation failed: " ++ e.message) }
    | none =>
      match env.applyResult .k8s with
      | some e =>
          { trace := [.applyGroup .crd, .applyGroup .trainjob, .applyGroup .k8s]
            statusSets := [statusCreating]
            outcome := .genericError ("K8s resources creation failed: " ++ e.message) }
      | none =>
        match env.applyResult .trainingRuntimes with
        | some e =>
            if e.code == 500 && strHasSub e.message "connect: " then
              { trace := applyAllTrace
                statusSets := [statusCreating, .maintenance msgPodNotReady]
                outcome := .errorWithStatus (.maintenance msgPodNotReady) }
            else if strHasSub e.message "no endpoints available" then
              { trace := applyAllTrace
                statusSets := [statusCreating, .maintenance msgNoEndpoints]
                outcome := .errorWithStatus (.maintenance msgNoEndpoints) }
            else
              { trace := applyAllTrace
                statusSets := [statusCreating]
                outcome := .genericError
                  ("TrainingRuntime resources creation failed: " ++ e.message) }
        | none =>
            { trace := applyAllTrace
              statusSets := [statusCreating, .maintenance "K8S resources created"]
              outcome := .ok }

/-- Embedding of `generate_allow_all_authorization_policies`: one
allow-all policy per component in `["manager", "lws", "jobset"]`, named
`{app_name}-{component}-allow-all`, selecting
`app.kubernetes.io/name: {app_name}-{component}`, action allow, a single
empty rule. -/
def generateAllowAllAuthorizationPolicies (appName namespaceName : String) :
    List AuthorizationPolicy :=
  ["manager", "lws", "jobset"].map fun component =>
    { name := appName ++ "-" ++ component ++ "-allow-all"
      namespaceName := namespaceName
      matchLabels := [("app.kubernetes.io/name", appName ++ "-" ++ component)]
      action := .allow
      rules := [{}] }

/-- Embedding of `_reconcile_policy_resource_manager`: when the
service-mesh relation exists, one `reconcile` call with `policies=[]` and
`raw_policies` the generated allow-all list; otherwise no call. -/
def reconcilePolicyResourceManager (env : Env) : List Effect :=
  if env.meshRelation then
    [.policyReconcile []
      (generateAllowAllAuthorizationPolicies env.appName env.namespaceName)]
  else []

/-- Embedding of `_remove_authorization_policies`: the policy-manager
`delete()` call is issued only when the unit is leader. -/
def removeAuthorizationPolicies (env : Env) : List Effect :=
  if env.isLeader then [.policyDelete] else []

/-- Embedding of `_on_event`: leadership check (a non-leader raises
`ErrorWithStatus("Waiting for leadership", WaitingStatus)`, caught below),
then policy reconciliation, then `_apply_k8s_resources`; an
`ErrorWithStatus` is caught and its status set; on success the status is
set to Active.  A `GenericCharmRuntimeError` is not an `ErrorWithStatus`
and escapes. -/
def onEvent (env : Env) : HandlerResult :=
  if env.isLeader then
    let polTrace := reconcilePolicyResourceManager env
    let a := applyK8sResources env
    match a.outcome with
    | .ok =>
        { trace := polTrace ++ a.trace
          statusSets := a.statusSets ++ [.active]
          outcome := .completed }
    | .errorWithStatus s =>
        { trace := polTrace ++ a.trace
          statusSets := a.statusSets ++ [s]
          outcome := .completed }
    | .genericError m =>
        { trace := polTrace ++ a.trace
          statusSets := a.statusSets
          outcome := .raisedGeneric m }
  else
    { trace := []
      statusSets := [.waiting "Waiting for leadership"]
      outcome := .completed }

/-- Embedding of `_on_install`: calls `_apply_k8s_resources` with no
leadership check and no policy reconciliation; catches `ErrorWithStatus`
and sets its status; sets no status of its own on success. -/
def onInstall (env : Env) : HandlerResult :=
  let a := applyK8sResources env
  match a.outcome with
  | .ok =>
      { trace := a.trace, statusSets := a.statusSets, outcome := .completed }
  | .errorWithStatus s =>
      { trace := a.trace, statusSets := a.statusSets ++ [s], outcome := .completed }
  | .genericError m =>
      { trace := a.trace, statusSets := a.statusSets, outcome := .raisedGeneric m }

/-- Embedding of `_on_upgrade`: delegates to `_on_event`. -/
def onUpgrade (env : Env) : HandlerResult :=
  onEvent env

/-- Embedding of the relation-broken handler
(`_remove_authorization_policies` observed directly): issues the policy
delete only on the leader and sets no status. -/
def onRelationBroken (env : Env) : HandlerResult :=
  { trace := removeAuthorizationPolicies env
    statusSets := []
    outcome := .completed }

/-- Poll the given CRD names for absence in order
(`ensure_crd_is_deleted` per name), stopping at the first poll that raises. -/
def runPolls (env : Env) : List String → List Effect × Option RemErr
  | [] => ([], none)
  | n :: ns =>
    match env.pollResult n with
    | none => (.pollCrd n :: (runPolls env ns).1, (runPolls env ns).2)
    | some er => ([.pollCrd n], some er)

/-- The try-block body of `_on_remove`: bulk-delete the TrainJob group,
poll its CRDs for absence, bulk-delete the CRD group, poll its CRDs,
bulk-delete the core K8s group; the first raised error aborts the rest. -/
def onRemoveBody (env : Env) : List Effect × Option RemErr :=
  match env.deleteResult .trainjob with
  | some e => ([.deleteGroup .trainjob], some (.api e))
  | none =>
    match (runPolls env env.trainjobCrds).2 with
    | some er =>
        (.deleteGroup .trainjob :: (runPolls env env.trainjobCrds).1, some er)
    | none =>
      match env.deleteResult .crd with
      | some e =>
          (.deleteGroup .trainjob :: (runPolls env env.trainjobCrds).1
            ++ [.deleteGroup .crd], some (.api e))
      | none =>
        match (runPolls env env.runtimeCrds).2 with
        | some er =>
            (.deleteGroup .trainjob :: (runPolls env env.trainjobCrds).1
              ++ [.deleteGroup .crd] ++ (runPolls env env.runtimeCrds).1, some er)
        | none =>
          match env.deleteResult .k8s with
          | some e =>
              (.deleteGroup .trainjob :: (runPolls env env.trainjobCrds).1
                ++ [.deleteGroup .crd] ++ (runPolls env env.runtimeCrds).1
                ++ [.deleteGroup .k8s], some (.api e))
          | none =>
              (.deleteGroup .trainjob :: (runPolls env env.trainjobCrds).1
                ++ [.deleteGroup .crd] ++ (runPolls env env.runtimeCrds).1
                ++ [.deleteGroup .k8s], none)

/-- Embedding of `_on_remove`: sets Maintenance("Removing K8S resources"),
renders manifests (pure), removes authorization policies (leader only),
runs the delete sequence; an `ApiError` with code 404 is swallowed (but
the remaining deletes in the try block were skipped), any other `ApiError`
is re-raised, an `ObjectStillExistsError` escapes uncaught; on reaching
the end sets Maintenance("K8S resources removed"). -/
def onRemove (env : Env) : HandlerResult :=
  match (onRemoveBody env).2 with
  | none =>
      { trace := removeAuthorizationPolicies env ++ (onRemoveBody env).1
        statusSets := [.maintenance "Removing K8S resources",
                       .maintenance "K8S resources removed"]
        outcome := .completed }
  | some (.api e) =>
      if e.code == 404 then
        { trace := removeAuthorizationPolicies env ++ (onRemoveBody env).1
          statusSets := [.maintenance "Removing K8S resources",
                         .maintenance "K8S resources removed"]
          outcome := .completed }
      else
        { trace := removeAuthorizationPolicies env ++ (onRemoveBody env).1
          statusSets := [.maintenance "Removing K8S resources"]
          outcome := .raisedApi e }
  | some .stillExists =>
      { trace := removeAuthorizationPolicies env ++ (onRemoveBody env).1
        statusSets := [.maintenance "Removing K8S resources"]
        outcome := .raisedStillExists }

/-- The lifecycle events the charm observes
(`self.framework.observe` calls in `__init__`). -/
inductive EventKind
  | install
  | configChanged
  | upgradeCharm
  | leaderElected
  | updateStatus
  | removeEvent
  | relationChanged
  | relationBroken
deriving DecidableEq

/-- Event-to-handler dispatch as registered in `__init__`:
`config-changed`, `leader-elected`, `update-status` and the service-mesh
`relation-changed` go to `_on_event`; `upgrade-charm` to `_on_upgrade`;
`install` to `_on_install`; `remove` to `_on_remove`; the service-mesh
`relation-broken` to `_remove_authorization_policies`. -/
def dispatch (env : Env) : EventKind → HandlerResult
  | .install => onInstall env
  | .configChanged => onEvent env
  | .upgradeCharm => onUpgrade env
  | .leaderElected => onEvent env
  | .updateStatus => onEvent env
  | .removeEvent => onRemove env
  | .relationChanged => onEvent env
  | .relationBroken => onRelationBroken env

/-- The fixed wait between `ensure_crd_is_deleted` poll attempts
(`tenacity.wait_fixed(5)`), in seconds. -/
def waitFixed : Nat := 5

/-- The total retry budget of `ensure_crd_is_deleted`
(`tenacity.stop_after_delay(300)`), in seconds. -/
def stopDelay : Nat := 300

/-- What one `client.get(CustomResourceDefinition, name)` call does:
returns the object, or raises an `ApiError`. -/
inductive GetRes
  | found
  | raises (e : ApiErr)

/-- The failure one poll attempt of `ensure_crd_is_deleted` can raise:
the charm's `ObjectStillExistsError` (object still present) or a re-raised
non-404 `ApiError`. -/
inductive PollFail
  | stillExists
  | api (e : ApiErr)
deriving DecidableEq

/-- One attempt of the `ensure_crd_is_deleted` body: a successful `get`
raises `ObjectStillExistsError`; an `ApiError` with code 404 means the CRD
is gone and the attempt returns; any other `ApiError` is re-raised.
`none` means the attempt returned normally. -/
def attemptFail : GetRes → Option PollFail
  | .found => some .stillExists
  | .raises e => if e.code == 404 then none else some (.api e)

/-- Result of the retrying `ensure_crd_is_deleted` call: success on
attempt `k` (the `get` reported not-found), or the last failure re-raised
once the deadline elapsed. -/
inductive PollOutcome
  | success (k : Nat)
  | failure (f : PollFail)
deriving DecidableEq

/-- The tenacity retry loop around `ensure_crd_is_deleted`'s body.
Attempt `k` happens at time `waitFixed * k` (attempts are instantaneous,
separated by the fixed 5 s wait); `fuel` is the number of retries the
300 s budget still allows — when an attempt fails with no fuel left,
`reraise=True` re-raises that last failure. -/
def ensureCrdLoop (get : Nat → GetRes) : Nat → Nat → PollOutcome
  | k, fuel =>
    match attemptFail (get k) with
    | none => .success k
    | some f =>
      match fuel with
      | 0 => .failure f
      | fuel' + 1 => ensureCrdLoop get (k + 1) fuel'

/-- Embedding of `ensure_crd_is_deleted` under
`@tenacity.retry(stop=stop_after_delay(300), wait=wait_fixed(5),
reraise=True)`: the first attempt runs at time 0, and after a failed
attempt at time `waitFixed * k ≥ stopDelay` the last failure is re-raised,
so `stopDelay / waitFixed` retries follow the first attempt. -/
def ensureCrdIsDeleted (get : Nat → GetRes) : PollOutcome :=
  ensureCrdLoop get 0 (stopDelay / waitFixed)

/-- A leader unit with no service-mesh relation whose every cluster call
succeeds. -/
def envBase : Env :=
  { isLeader := true
    meshRelation := false
    appName := "training-operator"
    namespaceName := "kubeflow"
    applyResult := fun _ => none
    deleteResult := fun _ => none
    pollResult := fun _ => none
    trainjobCrds := ["trainjobs.trainer.kubeflow.org"]
    runtimeCrds := ["clustertrainingruntimes.trainer.kubeflow.org"] }

/-- A non-leader unit whose every cluster call would succeed. -/
def envNonLeader : Env :=
  { envBase with isLeader := false }

/-- A leader unit whose CRD-group apply fails with a 400 "invalid name"
`ApiError`. -/
def envCrdErr : Env :=
  { envBase with
    applyResult := fun g =>
      if g = .crd then some { code := 400, message := "invalid name" } else none }

/-- A leader unit whose training-runtime apply fails with code 500 and a
message containing "connect:" but not "connect: " (no trailing space). -/
def envConnectNoSpace : Env :=
  { envBase with
    applyResult := fun g =>
      if g = .trainingRuntimes then
        some { code := 500, message := "connect:refused" }
      else none }

/-- A leader unit whose training-runtime apply fails with code 500 and a
message containing "connect: ". -/
def envConnect : Env :=
  { envBase with
    applyResult := fun g =>
      if g = .trainingRuntimes then
        some { code := 500, message := "dial tcp connect: connection refused" }
      else none }

/-- A leader unit whose training-runtime apply fails with a message
containing "no endpoints available". -/
def envNoEndpoints : Env :=
  { envBase with
    applyResult := fun g =>
      if g = .trainingRuntimes then
        some { code := 503, message := "no endpoints available for service" }
      else none }

/-- A leader unit with the service-mesh relation established. -/
def envMesh : Env :=
  { envBase with meshRelation := true }

/-- Removal on a leader where the TrainJob-group bulk delete raises a 404. -/
def envRemove404 : Env :=
  { envBase with
    deleteResult := fun g =>
      if g = .trainjob then some { code := 404, message := "not found" } else none }

/-- Removal on a leader where the TrainJob-group bulk delete raises a 500. -/
def envRemove500 : Env :=
  { envBase with
    deleteResult := fun g =>
      if g = .trainjob then some { code := 500, message := "boom" } else none }

/-- A fake CRD `get` that finds the object on the first two polls and
reports 404 afterwards. -/
def getFoundTwofold : Nat → GetRes :=
  fun j => if j < 2 then .found else .raises { code := 404, message := "not found" }

/-- A fake CRD `get` that always finds the object. -/
def getAlwaysFound : Nat → GetRes :=
  fun _ => .found

theorem ensureCrdLoop_success (get : Nat → GetRes) (N : Nat) :
    ∀ fuel k, (∀ j, k ≤ j → j < N → attemptFail (get j) ≠ none) →
      attemptFail (get N) = none → k ≤ N → N ≤ k + fuel →
      ensureCrdLoop get k fuel = .success N := by
  intro fuel
  induction fuel with
  | zero =>
    intro k hfail hok hk hbound
    have hkN : k = N := by omega
    subst hkN
    rw [ensureCrdLoop, hok]
  | succ fuel ih =>
    intro k hfail hok hk hbound
    by_cases hkN : k = N
    · subst hkN
      rw [ensureCrdLoop, hok]
    · have hlt : k < N := by omega
      rcases h : attemptFail (get k) with _ | f
      · exact absurd h (hfail k (Nat.le_refl k) hlt)
      · rw [ensureCrdLoop, h]
        exact ih (k + 1) (fun j hj hjN => hfail j (by omega) hjN) hok
          (by omega) (by omega)

theorem ensureCrdLoop_failure (get : Nat → GetRes) (fs : Nat → PollFail)
    (h : ∀ j, attemptFail (get j) = some (fs j)) :
    ∀ fuel k, ensureCrdLoop get k fuel = .failure (fs (k + fuel)) := by
  intro fuel
  induction fuel with
  | zero =>
    intro k
    rw [ensureCrdLoop, h k]
    rfl
  | succ fuel ih =>
    intro k
    rw [ensureCrdLoop, h k]
    rw [show k + (fuel + 1) = (k + 1) + fuel by omega]
    exact ih (k + 1)

/-- Claim C6: `ensure_crd_is_deleted` polls `get(CRD, name)` at a fixed
5-second interval within a 300-second total budget; it returns
successfully as soon as a `get` reports not-found (404); while a `get`
still returns the object it raises a retryable failure and keeps polling;
if the deadline elapses with the object still present it re-raises the
last failure. -/
theorem C6_ensure_crd_is_deleted (get : Nat → GetRes) (N : Nat)
    (fs : Nat → PollFail) :
    ((∀ j, j < N → attemptFail (get j) ≠ none) → attemptFail (get N) = none →
      waitFixed * N ≤ stopDelay → ensureCrdIsDeleted get = .success N) ∧
    ((∀ j, attemptFail (get j) = some (fs j)) →
      ensureCrdIsDeleted get = .failure (fs (stopDelay / waitFixed))) := by
  constructor
  · intro hfail hok hbudget
    have hN : N ≤ 0 + stopDelay / waitFixed := by
      simp only [waitFixed, stopDelay] at hbudget ⊢
      omega
    exact ensureCrdLoop_success get N (stopDelay / waitFixed) 0
      (fun j _ hjN => hfail j hjN) hok (Nat.zero_le N) hN
  · intro hall
    have h := ensureCrdLoop_failure get fs hall (stopDelay / waitFixed) 0
    simpa using h

/-- Witness for C6 at concrete inputs: a fake `get` that finds the CRD on
the first two polls and reports 404 afterwards makes the call succeed on
attempt 2; a fake `get` that always finds the CRD makes the call re-raise
the still-exists failure after the budget elapses. -/
theorem C6_witness :
    ensureCrdIsDeleted getFoundTwofold = .success 2 ∧
    ensureCrdIsDeleted getAlwaysFound = .failure .stillExists :=
  ⟨(C6_ensure_crd_is_deleted getFoundTwofold 2 (fun _ => .stillExists)).1
      (by decide) (by decide) (by decide),
   (C6_ensure_crd_is_deleted getAlwaysFound 0 (fun _ => .stillExists)).2
      (fun _ => rfl)⟩

theorem strAppendAssoc (a b c : String) : a ++ b ++ c = a ++ (b ++ c) := by
  rcases a with ⟨la⟩
  rcases b with ⟨lb⟩
  rcases c with ⟨lc⟩
  show String.mk (la ++ lb ++ lc) = String.mk (la ++ (lb ++ lc))
  rw [List.append_assoc]

theorem strCompName (a c s d : String) (h : "-" ++ c ++ s = d) :
    a ++ "-" ++ c ++ s = a ++ d := by
  rw [strAppendAssoc (a ++ "-") c s, strAppendAssoc a "-" (c ++ s),
      ← strAppendAssoc "-" c s, h]

theorem generateAllowAll_names (a n : String) :
    (generateAllowAllAuthorizationPolicies a n).map AuthorizationPolicy.name
      = [a ++ "-manager-allow-all", a ++ "-lws-allow-all",
         a ++ "-jobset-allow-all"] := by
  simp only [generateAllowAllAuthorizationPolicies, List.map]
  rw [strCompName a "manager" "-allow-all" "-manager-allow-all" rfl,
      strCompName a "lws" "-allow-all" "-lws-allow-all" rfl,
      strCompName a "jobset" "-allow-all" "-jobset-allow-all" rfl]

/-- Claim C7: resource application proceeds in the strict order CRD group,
then TrainJob group, then core K8s group, then training-runtime group, and
once any group's apply fails no later group in the sequence is applied. -/
theorem C7_apply_order_no_continuation (env : Env) (e : ApiErr) :
    (env.applyResult .crd = some e →
      (applyK8sResources env).trace = [.applyGroup .crd]) ∧
    (env.applyResult .crd = none → env.applyResult .trainjob = some e →
      (applyK8sResources env).trace
        = [.applyGroup .crd, .applyGroup .trainjob]) ∧
    (env.applyResult .crd = none → env.applyResult .trainjob = none →
      env.applyResult .k8s = some e →
      (applyK8sResources env).trace
        = [.applyGroup .crd, .applyGroup .trainjob, .applyGroup .k8s]) ∧
    (env.applyResult .crd = none → env.applyResult .trainjob = none →
      env.applyResult .k8s = none →
      (applyK8sResources env).trace = applyAllTrace) := by
  refine ⟨?_, ?_, ?_, ?_⟩
  · intro h1
    simp [applyK8sResources, h1]
  · intro h1 h2
    simp [applyK8sResources, h1, h2]
  · intro h1 h2 h3
    simp [applyK8sResources, h1, h2, h3]
  · intro h1 h2 h3
    rcases h4 : env.applyResult .trainingRuntimes with _ | e4 <;>
      simp only [applyK8sResources, h1, h2, h3, h4]
    split
    · rfl
    · split <;> rfl

/-- Witness for C7: with a CRD-group apply failing on a 400 "invalid name"
error, only the CRD group was applied. -/
theorem C7_witness :
    (applyK8sResources envCrdErr).trace = [.applyGroup .crd] :=
  (C7_apply_order_no_continuation envCrdErr
    { code := 400, message := "invalid name" }).1 rfl

/-- Claim C8: with no service-mesh relation the policy reconcile operation
issues zero calls to the policy manager; with a relation it issues exactly
one reconcile call carrying exactly the 3 generated allow-all policies
(named for the manager, lws and jobset components, each with action Allow
and a single empty rule) together with an empty managed-policy list. -/
theorem C8_policy_reconcile_calls (env : Env) :
    (env.meshRelation = false → reconcilePolicyResourceManager env = []) ∧
    (env.meshRelation = true →
      reconcilePolicyResourceManager env
        = [.policyReconcile []
            (generateAllowAllAuthorizationPolicies env.appName
              env.namespaceName)]) ∧
    (generateAllowAllAuthorizationPolicies env.appName
        env.namespaceName).length = 3 ∧
    (generateAllowAllAuthorizationPolicies env.appName
        env.namespaceName).map AuthorizationPolicy.name
      = [env.appName ++ "-manager-allow-all", env.appName ++ "-lws-allow-all",
         env.appName ++ "-jobset-allow-all"] ∧
    (∀ p ∈ generateAllowAllAuthorizationPolicies env.appName env.namespaceName,
      p.action = .allow ∧ p.rules = [{}] ∧ p.namespaceName = env.namespaceName) := by
  refine ⟨?_, ?_, ?_, ?_, ?_⟩
  · intro h
    simp [reconcilePolicyResourceManager, h]
  · intro h
    simp [reconcilePolicyResourceManager, h]
  · simp [generateAllowAllAuthorizationPolicies]
  · exact generateAllowAll_names env.appName env.namespaceName
  · intro p hp
    simp only [generateAllowAllAuthorizationPolicies, List.map, List.mem_cons,
      List.not_mem_nil, or_false] at hp
    rcases hp with h | h | h <;> subst h <;> exact ⟨rfl, rfl, rfl⟩

/-- Witness for C8: with the mesh relation present, the operation issues
exactly the single reconcile call with the generated raw policies and an
empty managed-policy list. -/
theorem C8_witness :
    reconcilePolicyResourceManager envMesh
      = [.policyReconcile []
          (generateAllowAllAuthorizationPolicies envMesh.appName
            envMesh.namespaceName)] :=
  (C8_policy_reconcile_calls envMesh).2.1 rfl

theorem policyDelete_not_in_runPolls (env : Env) :
    ∀ ns, Effect.policyDelete ∉ (runPolls env ns).1 := by
  intro ns
  induction ns with
  | nil => simp [runPolls]
  | cons n ns ih =>
    rcases h : env.pollResult n with _ | er
    · simp only [runPolls, h, List.mem_cons]
      rintro (hc | hc)
      · exact absurd hc (by simp)
      · exact ih hc
    · simp [runPolls, h]

theorem policyDelete_not_in_onRemoveBody (env : Env) :
    Effect.policyDelete ∉ (onRemoveBody env).1 := by
  have h1 := policyDelete_not_in_runPolls env env.trainjobCrds
  have h2 := policyDelete_not_in_runPolls env env.runtimeCrds
  rcases hd1 : env.deleteResult .trainjob with _ | e1
  · rcases hp1 : (runPolls env env.trainjobCrds).2 with _ | er1
    · rcases hd2 : env.deleteResult .crd with _ | e2
      · rcases hp2 : (runPolls env env.runtimeCrds).2 with _ | er2
        · rcases hd3 : env.deleteResult .k8s with _ | e3
          · simp [onRemoveBody, hd1, hp1, hd2, hp2, hd3, h1, h2]
          · simp [onRemoveBody, hd1, hp1, hd2, hp2, hd3, h1, h2]
        · simp [onRemoveBody, hd1, hp1, hd2, hp2, h1, h2]
      · simp [onRemoveBody, hd1, hp1, hd2, h1]
    · simp [onRemoveBody, hd1, hp1, h1]
  · simp [onRemoveBody, hd1]

theorem onRemove_trace (env : Env) :
    (onRemove env).trace
      = removeAuthorizationPolicies env ++ (onRemoveBody env).1 := by
  unfold onRemove
  rcases h : (onRemoveBody env).2 with _ | er
  · rfl
  · rcases er with e | _
    · simp only
      split <;> rfl
    · rfl

/-- Claim C5 (amended): the policy-removal operation issues the
policy-manager delete exactly when the unit is the leader — once per
invocation on a leader (on service-mesh relation-broken and during full
teardown alike), and not at all on a non-leader. -/
theorem C5_policy_removal_leader_gated (env : Env) :
    (onRelationBroken env).trace
      = (if env.isLeader then [Effect.policyDelete] else []) ∧
    (onRemove env).trace.count Effect.policyDelete
      = (if env.isLeader then 1 else 0) := by
  constructor
  · rfl
  · rw [onRemove_trace, List.count_append]
    have h0 : (onRemoveBody env).1.count Effect.policyDelete = 0 :=
      List.count_eq_zero.mpr (policyDelete_not_in_onRemoveBody env)
    rw [h0]
    unfold removeAuthorizationPolicies
    cases h : env.isLeader <;> simp [h]

/-- Counterexample for C5 as stated: invoked on a non-leader unit, the
policy-removal handler issues no policy-manager delete at all, so the
deletion is not unconditional. -/
theorem C5_counterexample :
    Effect.policyDelete ∉ (onRelationBroken envNonLeader).trace := by
  decide

theorem applyGroup_not_in_reconcile (env : Env) (g : Group) :
    Effect.applyGroup g ∉ reconcilePolicyResourceManager env := by
  unfold reconcilePolicyResourceManager
  cases h : env.meshRelation <;> simp [h]

/-- Claim C1 (amended): for every event routed through the common
reconcile handler — config-changed, upgrade, leader-elected,
update-status, service-mesh relation-changed — delivered to a non-leader
unit, the handler issues no cluster-mutating call and sets the unit
status to Waiting("Waiting for leadership").  (Install and remove apply
or delete resources with no leadership gate, and relation-broken on a
non-leader issues no call but sets no status.) -/
theorem C1_nonleader_waiting (env : Env) (ev : EventKind)
    (h : env.isLeader = false)
    (hev : ev = .configChanged ∨ ev = .upgradeCharm ∨ ev = .leaderElected ∨
      ev = .updateStatus ∨ ev = .relationChanged) :
    (dispatch env ev).trace = [] ∧
    (dispatch env ev).trace.any Effect.isMutating = false ∧
    (dispatch env ev).statusSets = [.waiting "Waiting for leadership"] ∧
    lastStatus (dispatch env ev) = some (.waiting "Waiting for leadership") := by
  have hres : dispatch env ev = onEvent env := by
    rcases hev with h1 | h1 | h1 | h1 | h1 <;> subst h1 <;> rfl
  rw [hres]
  simp [onEvent, h, lastStatus, lastSet]

/-- Witness for C1 at a concrete non-leader environment and the
config-changed event. -/
theorem C1_witness :
    (dispatch envNonLeader .configChanged).trace = [] ∧
    (dispatch envNonLeader .configChanged).trace.any Effect.isMutating = false ∧
    (dispatch envNonLeader .configChanged).statusSets
      = [.waiting "Waiting for leadership"] ∧
    lastStatus (dispatch envNonLeader .configChanged)
      = some (.waiting "Waiting for leadership") :=
  C1_nonleader_waiting envNonLeader .configChanged rfl (Or.inl rfl)

/-- Counterexample for C1 as stated: the install handler has no leadership
gate — on a non-leader unit the install event issues cluster-mutating
apply calls and leaves the status at Maintenance("K8S resources
created"), not Waiting("Waiting for leadership"). -/
theorem C1_counterexample :
    (dispatch envNonLeader .install).trace.any Effect.isMutating = true ∧
    lastStatus (dispatch envNonLeader .install)
      ≠ some (.waiting "Waiting for leadership") := by
  decide

/-- Claim C2 (amended): an API error during the CRD-group apply (crd or
trainjob handler) or the core-K8s-group apply raises a
GenericCharmRuntimeError with message "<Group> resources creation failed:
<upstream message>" (for the CRD group exactly
"CRD resources creation failed: {upstream message}"); being no
ErrorWithStatus, it escapes the handler to the framework instead of
producing a Blocked status — the last set status remains
Maintenance("Creating K8S resources") — and reconciliation stops: no
later group is applied. -/
theorem C2_unclassified_error_escapes (env : Env) (e : ApiErr)
    (hl : env.isLeader = true) :
    (env.applyResult .crd = some e →
      (onEvent env).outcome
        = .raisedGeneric ("CRD resources creation failed: " ++ e.message) ∧
      lastStatus (onEvent env) = some statusCreating ∧
      ((onEvent env).statusSets.any Status.isBlocked) = false ∧
      Effect.applyGroup .k8s ∉ (onEvent env).trace ∧
      Effect.applyGroup .trainingRuntimes ∉ (onEvent env).trace) ∧
    (env.applyResult .crd = none → env.applyResult .trainjob = some e →
      (onEvent env).outcome
        = .raisedGeneric ("CRD resources creation failed: " ++ e.message) ∧
      lastStatus (onEvent env) = some statusCreating ∧
      ((onEvent env).statusSets.any Status.isBlocked) = false ∧
      Effect.applyGroup .k8s ∉ (onEvent env).trace ∧
      Effect.applyGroup .trainingRuntimes ∉ (onEvent env).trace) ∧
    (env.applyResult .crd = none → env.applyResult .trainjob = none →
      env.applyResult .k8s = some e →
      (onEvent env).outcome
        = .raisedGeneric ("K8s resources creation failed: " ++ e.message) ∧
      lastStatus (onEvent env) = some statusCreating ∧
      ((onEvent env).statusSets.any Status.isBlocked) = false ∧
      Effect.applyGroup .trainingRuntimes ∉ (onEvent env).trace) := by
  have hr1 := applyGroup_not_in_reconcile env Group.k8s
  have hr2 := applyGroup_not_in_reconcile env Group.trainingRuntimes
  refine ⟨?_, ?_, ?_⟩
  · intro h1
    simp [onEvent, hl, applyK8sResources, h1, lastStatus, lastSet,
      statusCreating, Status.isBlocked, hr1, hr2]
  · intro h1 h2
    simp [onEvent, hl, applyK8sResources, h1, h2, lastStatus, lastSet,
      statusCreating, Status.isBlocked, hr1, hr2]
  · intro h1 h2 h3
    simp [onEvent, hl, applyK8sResources, h1, h2, h3, lastStatus, lastSet,
      statusCreating, Status.isBlocked, hr2]

/-- Witness for C2 at a concrete leader environment whose CRD-group apply
fails with a 400 "invalid name" error. -/
theorem C2_witness :
    (onEvent envCrdErr).outcome
      = .raisedGeneric ("CRD resources creation failed: " ++ "invalid name") ∧
    lastStatus (onEvent envCrdErr) = some statusCreating ∧
    ((onEvent envCrdErr).statusSets.any Status.isBlocked) = false ∧
    Effect.applyGroup .k8s ∉ (onEvent envCrdErr).trace ∧
    Effect.applyGroup .trainingRuntimes ∉ (onEvent envCrdErr).trace :=
  (C2_unclassified_error_escapes envCrdErr
    { code := 400, message := "invalid name" } rfl).1 rfl

/-- Counterexample for C2 as stated: with a CRD-group apply failing on a
400 "invalid name" error, no Blocked status is ever set — the
GenericCharmRuntimeError escapes the handler instead. -/
theorem C2_counterexample :
    ((dispatch envCrdErr .configChanged).statusSets.any Status.isBlocked)
      = false ∧
    (dispatch envCrdErr .configChanged).outcome
      = .raisedGeneric "CRD resources creation failed: invalid name" := by
  decide

/-- Claim C3 (amended): for an API error raised while applying the
training-runtime group: if its status code is 500 and its message
contains "connect: " (with the trailing space, as the source matches it),
the unit status becomes Maintenance("Charm Pod is not ready yet. Will
apply TrainingRuntimes later."); otherwise, if its message contains
"no endpoints available", the status becomes Maintenance("Webhook Server
Service endpoints not ready. Will apply ClusterServingRuntimes later.");
in both cases the event's reconciliation stops with a normal handler exit
(no framework-error outcome). -/
theorem C3_transient_runtime_errors (env : Env) (e : ApiErr)
    (hl : env.isLeader = true)
    (h1 : env.applyResult .crd = none) (h2 : env.applyResult .trainjob = none)
    (h3 : env.applyResult .k8s = none)
    (h4 : env.applyResult .trainingRuntimes = some e) :
    (e.code = 500 → strHasSub e.message "connect: " = true →
      lastStatus (onEvent env) = some (.maintenance msgPodNotReady) ∧
      (onEvent env).outcome = .completed) ∧
    (¬(e.code = 500 ∧ strHasSub e.message "connect: " = true) →
      strHasSub e.message "no endpoints available" = true →
      lastStatus (onEvent env) = some (.maintenance msgNoEndpoints) ∧
      (onEvent env).outcome = .completed) := by
  constructor
  · intro hc hm
    simp [onEvent, hl, applyK8sResources, h1, h2, h3, h4, hc, hm,
      lastStatus, lastSet]
  · intro hno hm
    have hcond : (e.code == 500 && strHasSub e.message "connect: ") = false := by
      cases hcb : (e.code == 500 && strHasSub e.message "connect: ")
      · rfl
      · rw [Bool.and_eq_true, beq_iff_eq] at hcb
        exact absurd hcb hno
    simp [onEvent, hl, applyK8sResources, h1, h2, h3, h4, hcond, hm,
      lastStatus, lastSet]

/-- Witness for C3 at two concrete leader environments: a 500 error with
"connect: " in its message, and an error with "no endpoints available" in
its message. -/
theorem C3_witness :
    (lastStatus (onEvent envConnect) = some (.maintenance msgPodNotReady) ∧
      (onEvent envConnect).outcome = .completed) ∧
    (lastStatus (onEvent envNoEndpoints)
        = some (.maintenance msgNoEndpoints) ∧
      (onEvent envNoEndpoints).outcome = .completed) :=
  ⟨(C3_transient_runtime_errors envConnect
      { code := 500, message := "dial tcp connect: connection refused" }
      rfl rfl rfl rfl rfl).1 rfl (by decide),
   (C3_transient_runtime_errors envNoEndpoints
      { code := 503, message := "no endpoints available for service" }
      rfl rfl rfl rfl rfl).2 (by decide) (by decide)⟩

/-- Counterexample for C3 as stated: a code-500 error whose message
contains "connect:" but not "connect: " (the source matches only the
trailing-space form) does not produce the Maintenance status the claim
requires — a GenericCharmRuntimeError escapes instead. -/
theorem C3_counterexample :
    strHasSub "connect:refused" "connect:" = true ∧
    lastStatus (onEvent envConnectNoSpace)
      ≠ some (.maintenance msgPodNotReady) ∧
    (onEvent envConnectNoSpace).outcome
      = .raisedGeneric
          "TrainingRuntime resources creation failed: connect:refused" := by
  decide

/-- Claim C4 (amended): during removal the TrainJob group, the CRD group
and the core K8s group are bulk-deleted in that order, with CRD-absence
polls between the groups; a delete raising 404 is swallowed — removal
still completes with final status Maintenance("K8S resources removed") —
but, like any raised error, it aborts the rest of the delete sequence
(the subsequent group deletions are skipped); a delete raising any other
code aborts the whole removal and re-raises the error. -/
theorem deleteGroup_not_in_runPolls (env : Env) (g : Group) :
    ∀ ns, Effect.deleteGroup g ∉ (runPolls env ns).1 := by
  intro ns
  induction ns with
  | nil => simp [runPolls]
  | cons n ns ih =>
    rcases h : env.pollResult n with _ | er
    · simp only [runPolls, h, List.mem_cons]
      rintro (hc | hc)
      · exact absurd hc (by simp)
      · exact ih hc
    · simp [runPolls, h]

theorem C4_remove_delete_sequence (env : Env) (e : ApiErr) :
    ((env.deleteResult .trainjob = none ∧
      (runPolls env env.trainjobCrds).2 = none ∧
      env.deleteResult .crd = none ∧
      (runPolls env env.runtimeCrds).2 = none ∧
      env.deleteResult .k8s = none) →
      (onRemove env).trace
        = removeAuthorizationPolicies env
          ++ [Effect.deleteGroup .trainjob]
          ++ (runPolls env env.trainjobCrds).1
          ++ [Effect.deleteGroup .crd]
          ++ (runPolls env env.runtimeCrds).1
          ++ [Effect.deleteGroup .k8s] ∧
      (onRemove env).outcome = .completed ∧
      lastStatus (onRemove env)
        = some (.maintenance "K8S resources removed")) ∧
    ((env.deleteResult .trainjob = some e ∧ e.code = 404) →
      (onRemove env).outcome = .completed ∧
      lastStatus (onRemove env)
        = some (.maintenance "K8S resources removed") ∧
      Effect.deleteGroup .crd ∉ (onRemove env).trace ∧
      Effect.deleteGroup .k8s ∉ (onRemove env).trace) ∧
    ((env.deleteResult .trainjob = some e ∧ e.code ≠ 404) →
      (onRemove env).outcome = .raisedApi e ∧
      lastStatus (onRemove env)
        = some (.maintenance "Removing K8S resources")) ∧
    ((env.deleteResult .trainjob = none ∧
      (runPolls env env.trainjobCrds).2 = none ∧
      env.deleteResult .crd = some e ∧ e.code = 404) →
      (onRemove env).outcome = .completed ∧
      lastStatus (onRemove env)
        = some (.maintenance "K8S resources removed") ∧
      Effect.deleteGroup .k8s ∉ (onRemove env).trace) ∧
    ((env.deleteResult .trainjob = none ∧
      (runPolls env env.trainjobCrds).2 = none ∧
      env.deleteResult .crd = some e ∧ e.code ≠ 404) →
      (onRemove env).outcome = .raisedApi e ∧
      lastStatus (onRemove env)
        = some (.maintenance "Removing K8S resources")) ∧
    ((env.deleteResult .trainjob = none ∧
      (runPolls env env.trainjobCrds).2 = none ∧
      env.deleteResult .crd = none ∧
      (runPolls env env.runtimeCrds).2 = none ∧
      env.deleteResult .k8s = some e ∧ e.code = 404) →
      (onRemove env).outcome = .completed ∧
      lastStatus (onRemove env)
        = some (.maintenance "K8S resources removed")) ∧
    ((env.deleteResult .trainjob = none ∧
      (runPolls env env.trainjobCrds).2 = none ∧
      env.deleteResult .crd = none ∧
      (runPolls env env.runtimeCrds).2 = none ∧
      env.deleteResult .k8s = some e ∧ e.code ≠ 404) →
      (onRemove env).outcome = .raisedApi e ∧
      lastStatus (onRemove env)
        = some (.maintenance "Removing K8S resources")) := by
  refine ⟨?_, ?_, ?_, ?_, ?_, ?_, ?_⟩
  · rintro ⟨hd1, hp1, hd2, hp2, hd3⟩
    simp [onRemove, onRemoveBody, hd1, hp1, hd2, hp2, hd3, lastStatus,
      lastSet]
  · rintro ⟨hd1, hc⟩
    have hnp : Effect.deleteGroup Group.crd ∉ removeAuthorizationPolicies env ∧
        Effect.deleteGroup Group.k8s ∉ removeAuthorizationPolicies env := by
      unfold removeAuthorizationPolicies
      cases h : env.isLeader <;> simp [h]
    simp [onRemove, onRemoveBody, hd1, hc, lastStatus, lastSet, hnp.1, hnp.2]
  · rintro ⟨hd1, hc⟩
    have hb : (e.code == 404) = false := by
      cases hcb : (e.code == 404)
      · rfl
      · rw [beq_iff_eq] at hcb
        exact absurd hcb hc
    simp [onRemove, onRemoveBody, hd1, hb, lastStatus, lastSet]
  · rintro ⟨hd1, hp1, hd2, hc⟩
    have hnp : Effect.deleteGroup Group.k8s ∉ (runPolls env env.trainjobCrds).1 :=
      deleteGroup_not_in_runPolls env Group.k8s env.trainjobCrds
    have hpre : Effect.deleteGroup Group.k8s ∉ removeAuthorizationPolicies env := by
      unfold removeAuthorizationPolicies
      cases h : env.isLeader <;> simp [h]
    simp [onRemove, onRemoveBody, hd1, hp1, hd2, hc, lastStatus, lastSet,
      hnp, hpre]
  · rintro ⟨hd1, hp1, hd2, hc⟩
    have hb : (e.code == 404) = false := by
      cases hcb : (e.code == 404)
      · rfl
      · rw [beq_iff_eq] at hcb
        exact absurd hcb hc
    simp [onRemove, onRemoveBody, hd1, hp1, hd2, hb, lastStatus, lastSet]
  · rintro ⟨hd1, hp1, hd2, hp2, hd3, hc⟩
    simp [onRemove, onRemoveBody, hd1, hp1, hd2, hp2, hd3, hc, lastStatus,
      lastSet]
  · rintro ⟨hd1, hp1, hd2, hp2, hd3, hc⟩
    have hb : (e.code == 404) = false := by
      cases hcb : (e.code == 404)
      · rfl
      · rw [beq_iff_eq] at hcb
        exact absurd hcb hc
    simp [onRemove, onRemoveBody, hd1, hp1, hd2, hp2, hd3, hb, lastStatus,
      lastSet]

/-- Witness for C4 at a concrete environment where every delete and every
poll succeeds: the three groups are deleted in order with polls between,
and removal ends in Maintenance("K8S resources removed"). -/
theorem C4_witness :
    (onRemove envBase).trace
      = removeAuthorizationPolicies envBase
        ++ [Effect.deleteGroup .trainjob]
        ++ (runPolls envBase envBase.trainjobCrds).1
        ++ [Effect.deleteGroup .crd]
        ++ (runPolls envBase envBase.runtimeCrds).1
        ++ [Effect.deleteGroup .k8s] ∧
    (onRemove envBase).outcome = .completed ∧
    lastStatus (onRemove envBase)
      = some (.maintenance "K8S resources removed") :=
  (C4_remove_delete_sequence envBase { code := 0, message := "" }).1
    ⟨rfl, by decide, rfl, by decide, rfl⟩

/-- Counterexample for C4 as stated: when the TrainJob-group bulk delete
raises 404, removal still completes with final status
Maintenance("K8S resources removed"), but the subsequent CRD-group and
core-group deletions do NOT occur — the 404 aborts the delete sequence. -/
theorem C4_counterexample :
    Effect.deleteGroup Group.crd ∉ (onRemove envRemove404).trace ∧
    Effect.deleteGroup Group.k8s ∉ (onRemove envRemove404).trace ∧
    (onRemove envRemove404).outcome = .completed ∧
    lastStatus (onRemove envRemove404)
      = some (.maintenance "K8S resources removed") := by
  decide

/-- Claim C9 (amended): with a leader unit, the service-mesh relation
absent, and all resource-group applies succeeding, handling the event
ends with status Active — and no process-supervision layer push and no
restart call occurs: the charm declares no workload container and never
interacts with a process-supervision layer. -/
theorem C9_active_end_to_end (env : Env) (hl : env.isLeader = true)
    (hm : env.meshRelation = false) (ha : ∀ g, env.applyResult g = none) :
    lastStatus (onEvent env) = some .active ∧
    (onEvent env).outcome = .completed ∧
    (onEvent env).trace = applyAllTrace ∧
    (onEvent env).trace.count Effect.layerPush = 0 ∧
    (onEvent env).trace.count Effect.serviceRestart = 0 := by
  have hres : onEvent env
      = { trace := applyAllTrace
          statusSets := [statusCreating, .maintenance "K8S resources created",
                         .active]
          outcome := .completed } := by
    simp [onEvent, hl, reconcilePolicyResourceManager, hm, applyK8sResources,
      ha .crd, ha .trainjob, ha .k8s, ha .trainingRuntimes]
  rw [hres]
  exact ⟨rfl, rfl, rfl, by decide, by decide⟩

/-- Witness for C9 at a concrete leader environment with no mesh relation
and all applies succeeding. -/
theorem C9_witness :
    lastStatus (onEvent envBase) = some .active ∧
    (onEvent envBase).outcome = .completed ∧
    (onEvent envBase).trace = applyAllTrace ∧
    (onEvent envBase).trace.count Effect.layerPush = 0 ∧
    (onEvent envBase).trace.count Effect.serviceRestart = 0 :=
  C9_active_end_to_end envBase rfl rfl (fun _ => rfl)

/-- Counterexample for C9 as stated: in the end-to-end success scenario
the final status is Active, but the handler performs zero layer pushes
and zero restart calls, not exactly one of each. -/
theorem C9_counterexample :
    lastStatus (onEvent envBase) = some .active ∧
    (onEvent envBase).trace.count Effect.layerPush ≠ 1 ∧
    (onEvent envBase).trace.count Effect.serviceRestart ≠ 1 := by
  decide

theorem applyK8s_shape (env : Env) :
    ((applyK8sResources env).outcome = .ok ∧
      (applyK8sResources env).statusSets
        = [statusCreating, .maintenance "K8S resources created"]) ∨
    ((applyK8sResources env).outcome
        = .errorWithStatus (.maintenance msgPodNotReady) ∧
      (applyK8sResources env).statusSets
        = [statusCreating, .maintenance msgPodNotReady]) ∨
    ((applyK8sResources env).outcome
        = .errorWithStatus (.maintenance msgNoEndpoints) ∧
      (applyK8sResources env).statusSets
        = [statusCreating, .maintenance msgNoEndpoints]) ∨
    (∃ m, (applyK8sResources env).outcome = .genericError m ∧
      (applyK8sResources env).statusSets = [statusCreating]) := by
  rcases h1 : env.applyResult .crd with _ | e1
  · rcases h2 : env.applyResult .trainjob with _ | e2
    · rcases h3 : env.applyResult .k8s with _ | e3
      · rcases h4 : env.applyResult .trainingRuntimes with _ | e4
        · exact Or.inl ⟨by simp [applyK8sResources, h1, h2, h3, h4],
            by simp [applyK8sResources, h1, h2, h3, h4]⟩
        · simp only [applyK8sResources, h1, h2, h3, h4]
          split
          · exact Or.inr (Or.inl ⟨rfl, rfl⟩)
          · split
            · exact Or.inr (Or.inr (Or.inl ⟨rfl, rfl⟩))
            · exact Or.inr (Or.inr (Or.inr ⟨_, rfl, rfl⟩))
      · exact Or.inr (Or.inr (Or.inr
          ⟨"K8s resources creation failed: " ++ e3.message,
            by simp [applyK8sResources, h1, h2, h3],
            by simp [applyK8sResources, h1, h2, h3]⟩))
    · exact Or.inr (Or.inr (Or.inr
        ⟨"CRD resources creation failed: " ++ e2.message,
          by simp [applyK8sResources, h1, h2],
          by simp [applyK8sResources, h1, h2]⟩))
  · exact Or.inr (Or.inr (Or.inr
      ⟨"CRD resources creation failed: " ++ e1.message,
        by simp [applyK8sResources, h1],
        by simp [applyK8sResources, h1]⟩))

theorem onEvent_no_blocked (env : Env) :
    ((onEvent env).statusSets.all fun s => !s.isBlocked) = true ∧
    (∀ m, (onEvent env).outcome = .raisedGeneric m →
      lastStatus (onEvent env) = some statusCreating) := by
  cases hl : env.isLeader
  · simp [onEvent, hl, Status.isBlocked]
  · rcases applyK8s_shape env with ⟨ho, hs⟩ | ⟨ho, hs⟩ | ⟨ho, hs⟩ | ⟨m0, ho, hs⟩ <;>
      simp [onEvent, hl, ho, hs, Status.isBlocked, statusCreating,
        lastStatus, lastSet]

theorem onInstall_no_blocked (env : Env) :
    ((onInstall env).statusSets.all fun s => !s.isBlocked) = true ∧
    (∀ m, (onInstall env).outcome = .raisedGeneric m →
      lastStatus (onInstall env) = some statusCreating) := by
  rcases applyK8s_shape env with ⟨ho, hs⟩ | ⟨ho, hs⟩ | ⟨ho, hs⟩ | ⟨m0, ho, hs⟩ <;>
    simp [onInstall, ho, hs, Status.isBlocked, statusCreating,
      lastStatus, lastSet]

theorem onRemove_shape (env : Env) :
    ((onRemove env).statusSets
        = [.maintenance "Removing K8S resources",
           .maintenance "K8S resources removed"] ∨
      (onRemove env).statusSets = [.maintenance "Removing K8S resources"]) ∧
    (∀ m, (onRemove env).outcome ≠ .raisedGeneric m) := by
  unfold onRemove
  rcases h : (onRemoveBody env).2 with _ | er
  · simp
  · rcases er with e | _
    · by_cases h404 : (e.code == 404) = true <;> simp [h404]
    · simp

/-- Claim C10: under every code path of every event handler, the statuses
set are only Active, Waiting or Maintenance — a Blocked status is never
produced; whenever a GenericCharmRuntimeError escapes a handler the last
set status is Maintenance("Creating K8S resources"); and an unclassified
API error during resource application does escape the handler as a
raised GenericCharmRuntimeError (shown at the CRD-group apply of the
install handler). -/
theorem C10_never_blocked (env : Env) (ev : EventKind) :
    ((dispatch env ev).statusSets.all fun s => !s.isBlocked) = true ∧
    (∀ m, (dispatch env ev).outcome = .raisedGeneric m →
      lastStatus (dispatch env ev) = some statusCreating) ∧
    (∀ e, env.applyResult .crd = some e →
      (onInstall env).outcome
        = .raisedGeneric ("CRD resources creation failed: " ++ e.message) ∧
      lastStatus (onInstall env) = some statusCreating) := by
  refine ⟨?_, ?_, ?_⟩
  · cases ev
    case install => exact (onInstall_no_blocked env).1
    case configChanged => exact (onEvent_no_blocked env).1
    case upgradeCharm => exact (onEvent_no_blocked env).1
    case leaderElected => exact (onEvent_no_blocked env).1
    case updateStatus => exact (onEvent_no_blocked env).1
    case relationChanged => exact (onEvent_no_blocked env).1
    case relationBroken => simp [dispatch, onRelationBroken]
    case removeEvent =>
      rcases (onRemove_shape env).1 with hs | hs <;>
        simp [dispatch, hs, Status.isBlocked]
  · cases ev
    case install => exact (onInstall_no_blocked env).2
    case configChanged => exact (onEvent_no_blocked env).2
    case upgradeCharm => exact (onEvent_no_blocked env).2
    case leaderElected => exact (onEvent_no_blocked env).2
    case updateStatus => exact (onEvent_no_blocked env).2
    case relationChanged => exact (onEvent_no_blocked env).2
    case relationBroken =>
      intro m h
      exact absurd h (by simp [dispatch, onRelationBroken])
    case removeEvent =>
      intro m h
      exact absurd h ((onRemove_shape env).2 m)
  · intro e he
    simp [onInstall, applyK8sResources, he, lastStatus, lastSet]

/-- Witness for C10 at a concrete environment whose CRD-group apply fails
unclassified, handled by the install event: no Blocked status, the error
escapes, and the last status is Maintenance("Creating K8S resources"). -/
theorem C10_witness :
    ((dispatch envCrdErr .install).statusSets.all fun s => !s.isBlocked)
      = true ∧
    lastStatus (dispatch envCrdErr .install) = some statusCreating ∧
    (onInstall envCrdErr).outcome
      = .raisedGeneric ("CRD resources creation failed: " ++ "invalid name") :=
  ⟨(C10_never_blocked envCrdErr .install).1,
   (C10_never_blocked envCrdErr .install).2.1
     "CRD resources creation failed: invalid name" (by decide),
   ((C10_never_blocked envCrdErr .install).2.2
     { code := 400, message := "invalid name" } rfl).1⟩

end TrainingOperator
